import Mathlib

/-!
Formal model of the document-processing pipeline of the
Monitor_Credit_Card_Payments repository.

The Python sources are shallowly embedded: pure string and list
manipulations become Lean functions on `String`, `List` and `Finset`;
calls to external services (subprocesses, the Groq completion API,
PDF rasterization, JSON parsing of untrusted model output) are
modelled as explicit oracle parameters describing the outcome of the
external interaction; Python `Decimal` values are modelled exactly as
an integer mantissa with a power-of-ten scale. Python strings are
modelled as `String` (sequences of characters); `text[:n]` becomes
`List.take n` on `String.data`; `str.split()`, `str.lower()` and
`str.strip()` are modelled by structural functions on the character
list (`lower` on the ASCII fragment).
-/

namespace Monitor

/-! ## Python string primitives -/

/-- Python `s.lower()` (ASCII fragment). -/
def pyLower (s : String) : String :=
  ⟨s.data.map Char.toLower⟩

/-- Python `s.strip()`: drop whitespace from both ends. -/
def pyStrip (s : String) : String :=
  ⟨((s.data.dropWhile Char.isWhitespace).reverse.dropWhile Char.isWhitespace).reverse⟩

/-- One step of splitting a character list at whitespace: a whitespace
character starts a fresh (possibly empty) group, any other character is
prepended to the current group. -/
def wordsAux (c : Char) (acc : List (List Char)) : List (List Char) :=
  if c.isWhitespace then [] :: acc
  else match acc with
  | [] => [[c]]
  | w :: ws => (c :: w) :: ws

/-- Python `s.split()` with no separator: split on runs of whitespace,
discarding empty pieces. -/
def pyWords (s : String) : List String :=
  ((s.data.foldr wordsAux []).filter (fun w => !w.isEmpty)).map (fun w => ⟨w⟩)

/-- The set of lowercased whitespace-separated tokens of a text:
Python `set(text.lower().split())`. -/
def tokenSet (s : String) : Finset String :=
  (pyWords (pyLower s)).toFinset

/-! ## Similarity score (main.py lines 470-477, vision_ocr.py lines 309-325)

Both places compute the same quantity: starting from
`similarity_score = None`, if both extraction results report success,
form the two lowercased token sets, and if both sets are truthy
(non-empty) set the score to `overlap / total_unique` with a
(redundant) guard against a zero denominator. -/

/-- The similarity computation of `extract_document_text`
(main.py lines 470-477): `None` unless both extractions succeeded and
both token sets are non-empty, else word-set overlap divided by the
total number of distinct words. -/
def similarity_score (poppler_success : Bool) (poppler_text : String)
    (ocr_success : Bool) (ocr_text : String) : Option ℚ :=
  if poppler_success && ocr_success then
    let poppler_words := tokenSet poppler_text
    let ocr_words := tokenSet ocr_text
    if poppler_words ≠ ∅ ∧ ocr_words ≠ ∅ then
      some (if 0 < (poppler_words ∪ ocr_words).card then
        ((poppler_words ∩ ocr_words).card : ℚ) / ((poppler_words ∪ ocr_words).card : ℚ)
      else 0)
    else none
  else none

/-! ## Amount normalization (transaction_extractor.py `_parse_amount`, lines 224-238)

`_parse_amount` returns `None` for `None`, cleans string inputs by
deleting every `$`, `,` and space character and feeds the remainder to
`Decimal`, and feeds `str(x)` of numeric inputs to `Decimal`; any
exception is caught and turned into `None`.

A `Decimal` value is modelled exactly as an integer mantissa together
with a decimal scale (the represented number is `mantissa / 10 ^ scale`).
`Decimal` construction from a string is modelled for the plain decimal
fragment of its accepted syntax: optional surrounding whitespace, an
optional sign, and a digit string with an optional fractional part
(exponent forms, `NaN`, `Infinity` and underscore separators are outside
the model; no claim depends on them). -/

/-- An exact decimal value: the number `mantissa / 10 ^ scale`. -/
structure DecimalVal where
  mantissa : Int
  scale : Nat
deriving Repr, DecidableEq

/-- The rational number represented by a `DecimalVal`. -/
def DecimalVal.toRat (d : DecimalVal) : ℚ :=
  (d.mantissa : ℚ) / (10 : ℚ) ^ d.scale

/-- Numeric value of a list of ASCII digits, most significant first. -/
def digitsVal (l : List Char) : Nat :=
  l.foldl (fun n c => 10 * n + (c.toNat - 48)) 0

/-- Parse an unsigned plain decimal: digits with an optional fractional
part, at least one digit overall (model of the coefficient part of the
`Decimal` string grammar). -/
def parseUnsignedDecimal (l : List Char) : Option (Nat × Nat) :=
  let ip := l.takeWhile Char.isDigit
  let rest := l.dropWhile Char.isDigit
  match rest with
  | [] => if ip.isEmpty then none else some (digitsVal ip, 0)
  | '.' :: frac =>
    if frac.all Char.isDigit && !(ip.isEmpty && frac.isEmpty) then
      some (digitsVal ip * 10 ^ frac.length + digitsVal frac, frac.length)
    else none
  | _ => none

/-- Model of Python `Decimal(s)` on the plain decimal fragment:
strip surrounding whitespace, read an optional sign, then an unsigned
plain decimal; `none` models a raised `InvalidOperation`. -/
def parseDecimalString (s : String) : Option DecimalVal :=
  let trimmed := (pyStrip s).data
  match trimmed with
  | '-' :: rest => (parseUnsignedDecimal rest).map (fun p => ⟨-(p.1 : Int), p.2⟩)
  | '+' :: rest => (parseUnsignedDecimal rest).map (fun p => ⟨(p.1 : Int), p.2⟩)
  | other => (parseUnsignedDecimal other).map (fun p => ⟨(p.1 : Int), p.2⟩)

/-- The cleaning step of `_parse_amount` for string inputs:
`amount.replace("$", "").replace(",", "").replace(" ", "")`,
i.e. delete every dollar sign, comma and space character. -/
def cleanAmountChars (s : String) : String :=
  ⟨s.data.filter (fun c => c != '$' && c != ',' && c != ' ')⟩

/-- A JSON value fed to `_parse_amount`: either a string or a number
(numbers reach `Decimal` through `str(x)`, modelled as an exact
decimal). -/
inductive AmountVal where
  | str (s : String)
  | num (d : DecimalVal)
deriving Repr, DecidableEq

/-- `TransactionExtractor._parse_amount` (transaction_extractor.py lines
224-238): `None` stays `None`, strings are cleaned of `$`, `,` and
spaces and parsed as `Decimal`, numbers are taken exactly; every parse
failure yields `none` instead of an exception. -/
def parse_amount : Option AmountVal → Option DecimalVal
  | none => none
  | some (.str s) => parseDecimalString (cleanAmountChars s)
  | some (.num d) => some d

/-! ## Date normalization (transaction_extractor.py `_parse_date`, lines 206-222)

`_parse_date` tries the formats `%Y-%m-%d`, `%m/%d/%Y`, `%d/%m/%Y`,
`%Y-%m-%d %H:%M:%S` in order and returns the first match, else `None`.
The `strptime` grammar is modelled on its core: a four-digit year,
one-or-two-digit month/day/hour/minute/second fields with the ranges
`strptime` enforces, the literal separators of each format, full input
consumption, and calendar validity of the day (including leap years)
as checked by the `datetime` constructor. -/

/-- A parsed `datetime` value. -/
structure DateTimeVal where
  year : Nat
  month : Nat
  day : Nat
  hour : Nat := 0
  minute : Nat := 0
  second : Nat := 0
deriving Repr, DecidableEq

/-- Read exactly four ASCII digits. -/
def takeDigits4 (l : List Char) : Option (Nat × List Char) :=
  match l with
  | c1 :: c2 :: c3 :: c4 :: rest =>
    if c1.isDigit && c2.isDigit && c3.isDigit && c4.isDigit then
      some (digitsVal [c1, c2, c3, c4], rest)
    else none
  | _ => none

/-- Read one or two ASCII digits (two when available). -/
def takeDigits2 (l : List Char) : Option (Nat × List Char) :=
  match l with
  | c1 :: c2 :: rest =>
    if c1.isDigit then
      if c2.isDigit then some (digitsVal [c1, c2], rest)
      else some (digitsVal [c1], c2 :: rest)
    else none
  | [c1] => if c1.isDigit then some (digitsVal [c1], []) else none
  | [] => none

/-- Consume one expected literal character. -/
def expectChar (c : Char) (l : List Char) : Option (List Char) :=
  match l with
  | x :: rest => if x = c then some rest else none
  | [] => none

/-- Gregorian leap-year test. -/
def isLeapYear (y : Nat) : Bool :=
  (y % 4 == 0 && y % 100 != 0) || y % 400 == 0

/-- Number of days of a month in a year. -/
def daysInMonth (y m : Nat) : Nat :=
  if m == 2 then (if isLeapYear y then 29 else 28)
  else if m == 4 || m == 6 || m == 9 || m == 11 then 30
  else 31

/-- Validity of a calendar date as enforced by the `datetime`
constructor (year 1-9999, month 1-12, day fitting the month). -/
def validDate (y m d : Nat) : Bool :=
  1 ≤ y && y ≤ 9999 && 1 ≤ m && m ≤ 12 && 1 ≤ d && d ≤ daysInMonth y m

/-- Format `%Y-%m-%d`. -/
def parseFmtISO (l : List Char) : Option DateTimeVal := do
  let (y, r1) ← takeDigits4 l
  let r2 ← expectChar '-' r1
  let (m, r3) ← takeDigits2 r2
  let r4 ← expectChar '-' r3
  let (d, r5) ← takeDigits2 r4
  if r5 = [] ∧ validDate y m d then pure ⟨y, m, d, 0, 0, 0⟩ else none

/-- Format `%m/%d/%Y`. -/
def parseFmtUS (l : List Char) : Option DateTimeVal := do
  let (m, r1) ← takeDigits2 l
  let r2 ← expectChar '/' r1
  let (d, r3) ← takeDigits2 r2
  let r4 ← expectChar '/' r3
  let (y, r5) ← takeDigits4 r4
  if r5 = [] ∧ validDate y m d then pure ⟨y, m, d, 0, 0, 0⟩ else none

/-- Format `%d/%m/%Y`. -/
def parseFmtEU (l : List Char) : Option DateTimeVal := do
  let (d, r1) ← takeDigits2 l
  let r2 ← expectChar '/' r1
  let (m, r3) ← takeDigits2 r2
  let r4 ← expectChar '/' r3
  let (y, r5) ← takeDigits4 r4
  if r5 = [] ∧ validDate y m d then pure ⟨y, m, d, 0, 0, 0⟩ else none

/-- Format `%Y-%m-%d %H:%M:%S`. -/
def parseFmtISOTime (l : List Char) : Option DateTimeVal := do
  let (y, r1) ← takeDigits4 l
  let r2 ← expectChar '-' r1
  let (m, r3) ← takeDigits2 r2
  let r4 ← expectChar '-' r3
  let (d, r5) ← takeDigits2 r4
  let r6 ← expectChar ' ' r5
  let (hh, r7) ← takeDigits2 r6
  let r8 ← expectChar ':' r7
  let (mm, r9) ← takeDigits2 r8
  let r10 ← expectChar ':' r9
  let (ss, r11) ← takeDigits2 r10
  if r11 = [] ∧ validDate y m d ∧ hh ≤ 23 ∧ mm ≤ 59 ∧ ss ≤ 59 then
    pure ⟨y, m, d, hh, mm, ss⟩
  else none

/-- `TransactionExtractor._parse_date`: falsy input maps to `None`,
otherwise the four formats are tried in order and the first match wins;
all failures collapse to `None`. -/
def parse_date : Option String → Option DateTimeVal
  | none => none
  | some s =>
    if s = "" then none
    else (parseFmtISO s.data).orElse fun _ =>
      (parseFmtUS s.data).orElse fun _ =>
        (parseFmtEU s.data).orElse fun _ =>
          parseFmtISOTime s.data

/-! ## String field normalization (transaction_extractor.py lines 240-304) -/

/-- `TransactionExtractor._clean_description`: falsy input maps to
`None`, else strip and cap at 500 characters. -/
def clean_description : Option String → Option String
  | none => none
  | some s => if s = "" then none else some ⟨(pyStrip s).data.take 500⟩

/-- `TransactionExtractor._clean_string`: falsy input maps to `None`,
else strip and cap at 255 characters. -/
def clean_string : Option String → Option String
  | none => none
  | some s => if s = "" then none else some ⟨(pyStrip s).data.take 255⟩

/-- The `type_mapping` table of `_normalize_transaction_type`. -/
def type_mapping : List (String × String) :=
  [("debit", "debit"), ("credit", "credit"), ("withdrawal", "withdrawal"),
   ("deposit", "deposit"), ("purchase", "purchase"), ("payment", "payment"),
   ("transfer", "transfer"), ("fee", "fee")]

/-- `TransactionExtractor._normalize_transaction_type`: falsy input maps
to `None`, else lowercase, strip, and map through `type_mapping` with
unmapped values passing through unchanged. -/
def normalize_transaction_type : Option String → Option String
  | none => none
  | some s =>
    if s = "" then none
    else
      let t := pyStrip (pyLower s)
      some ((type_mapping.lookup t).getD t)

/-- The `category_mapping` table of `_normalize_category`. -/
def category_mapping : List (String × String) :=
  [("grocery", "groceries"), ("groceries", "groceries"), ("food", "food"),
   ("restaurant", "food"), ("dining", "food"), ("gas", "fuel"),
   ("fuel", "fuel"), ("shopping", "shopping"), ("retail", "shopping"),
   ("entertainment", "entertainment"), ("medical", "healthcare"),
   ("healthcare", "healthcare"), ("utility", "utilities"),
   ("utilities", "utilities"), ("transfer", "transfer"),
   ("payment", "payment"), ("fee", "fees"), ("fees", "fees")]

/-- `TransactionExtractor._normalize_category`: falsy input maps to
`None`, else lowercase, strip, and map through `category_mapping` with
unmapped values passing through unchanged. -/
def normalize_category : Option String → Option String
  | none => none
  | some s =>
    if s = "" then none
    else
      let t := pyStrip (pyLower s)
      some ((category_mapping.lookup t).getD t)

/-! ## Transaction batch processing (transaction_extractor.py lines 160-204)

A raw transaction delivered by `json.loads` is either a JSON object
(whose field reads through `.get` never raise) or some other JSON value,
on which the attribute access `transaction.get(...)` raises; the
`except` branch of the loop then records a failure entry. `Option`
fields model key absence and JSON `null` alike. -/

/-- The fields `_process_transactions` reads from one JSON transaction
object via `.get` (each `none` models an absent key or a JSON null). -/
structure TxFields where
  transaction_date : Option String := none
  description : Option String := none
  amount : Option AmountVal := none
  transaction_type : Option String := none
  balance : Option AmountVal := none
  reference_number : Option String := none
  category : Option String := none
  confidence : Option ℚ := none

/-- One element of the `transactions` array of the parsed LLM response:
a JSON object, or a non-object value whose processing raises. -/
inductive RawTx where
  | obj (fields : TxFields)
  | malformed (err : String)

/-- A processed transaction dictionary as built by
`_process_transactions` (each `none` models an absent key or `None`). -/
structure ProcessedTx where
  statement_id : String
  transaction_date : Option DateTimeVal := none
  description : Option String := none
  amount : Option DecimalVal := none
  transaction_type : Option String := none
  balance : Option DecimalVal := none
  reference_number : Option String := none
  category : Option String := none
  extraction_source : Option String := none
  confidence_score : Option ℚ := none
  llm_raw_response : Option String := none
  processing_completed : Bool := false
  processing_error : Option String := none

/-- The body of the `for i, transaction in enumerate(transactions)`
loop of `_process_transactions`: an object row is normalized field by
field and tagged `extraction_source="llm"`, `processing_completed=True`;
a row whose processing raises is recorded as a failure entry carrying
the error, the raw response and `processing_completed=False` (and no
`extraction_source` key). -/
def processOneTx (sid raw : String) (i : Nat) : RawTx → ProcessedTx
  | .obj f =>
    { statement_id := sid
      transaction_date := parse_date f.transaction_date
      description := clean_description f.description
      amount := parse_amount f.amount
      transaction_type := normalize_transaction_type f.transaction_type
      balance := parse_amount f.balance
      reference_number := clean_string f.reference_number
      category := normalize_category f.category
      extraction_source := some "llm"
      confidence_score := some (f.confidence.getD 0.8)
      llm_raw_response := some raw
      processing_completed := true
      processing_error := none }
  | .malformed e =>
    { statement_id := sid
      description := some ("Failed to process transaction " ++ toString i ++ ": " ++ e)
      processing_completed := false
      processing_error := some e
      llm_raw_response := some raw }

/-- Index-tracking recursion of the enumeration loop. -/
def processTransactionsAux (sid raw : String) (i : Nat) : List RawTx → List ProcessedTx
  | [] => []
  | t :: ts => processOneTx sid raw i t :: processTransactionsAux sid raw (i + 1) ts

/-- `TransactionExtractor._process_transactions` (lines 160-204). -/
def processTransactions (txs : List RawTx) (sid raw : String) : List ProcessedTx :=
  processTransactionsAux sid raw 0 txs

/-! ## Prompt construction (transaction_extractor.py `_create_extraction_prompt`, lines 147-158) -/

/-- The fixed text of the user prompt before the statement text. -/
def promptHeader : String :=
  "Please extract all transaction details from the following financial statement text:\n\n"

/-- The fixed text of the user prompt after the statement text. -/
def promptFooter : String :=
  "\n\nExtract each transaction with all available details and return as JSON following the specified format."

/-- The truncation marker appended to over-long statement texts. -/
def truncationMarker : String := "\n\n[TEXT TRUNCATED]"

/-- `TransactionExtractor._create_extraction_prompt`: texts longer than
10000 characters are cut to their first 10000 characters with the
truncation marker appended, then embedded between the fixed header and
footer. -/
def create_extraction_prompt (statement_text : String) : String :=
  let t :=
    if statement_text.length > 10000 then
      (⟨statement_text.data.take 10000⟩ : String) ++ truncationMarker
    else statement_text
  promptHeader ++ t ++ promptFooter

/-! ## Top-level extraction (transaction_extractor.py `extract_transactions`, lines 29-105)

The external interaction is an oracle: given the constructed user
prompt, the completion call either raises (network or API failure) or
returns a raw response string whose `json.loads` outcome is delivered
alongside it (`Except.error` carrying the decode-error text). The
parsed object model keeps the two fields the code reads through `.get`:
the `transactions` array and the top-level `confidence` number. -/

/-- The parsed JSON object of a successful `json.loads` (each `none`
models an absent key). -/
structure ParsedData where
  transactions : Option (List RawTx) := none
  confidence : Option ℚ := none

/-- Outcome of one completion-API call for a given prompt. -/
inductive LLMCall where
  | raises (msg : String)
  | returns (raw : String) (parsed : Except String ParsedData)

/-- The dictionary returned by `extract_transactions` (each `none`
models an absent key). -/
structure ExtractionOutcome where
  success : Bool
  total_transactions : Option Nat := none
  transactions : List ProcessedTx := []
  raw_response : Option String := none
  confidence_score : Option ℚ := none
  error : Option String := none

/-- `TransactionExtractor.extract_transactions`: no client means an
immediate structured failure; an API exception is caught into a
structured failure; a JSON decode failure is caught into a structured
failure retaining the raw text; otherwise the transactions array
(default `[]`) is processed and the result reports success with the
top-level confidence (default 0.8). -/
def extract_transactions (hasClient : Bool)
    (llm : String → LLMCall) (statement_text statement_id : String) :
    ExtractionOutcome :=
  if !hasClient then
    { success := false
      error := some "Groq API client not initialized. Check GROQ_API_KEY."
      transactions := [] }
  else
    match llm (create_extraction_prompt statement_text) with
    | .raises msg =>
      { success := false, error := some msg, transactions := [] }
    | .returns raw (.error e) =>
      { success := false
        error := some ("Invalid JSON response from LLM: " ++ e)
        transactions := []
        raw_response := some raw }
    | .returns raw (.ok d) =>
      let processed := processTransactions (d.transactions.getD []) statement_id raw
      { success := true
        total_transactions := some processed.length
        transactions := processed
        raw_response := some raw
        confidence_score := some (d.confidence.getD 0.8) }

/-! ## Orchestration (main.py `process_transaction_extraction`, lines 177-226)

The Document model keeps the fields the function reads; nullable text
columns are `Option String`. Python truthiness of a text column is
"present and non-empty". The per-row database persistence loop sets
`extraction_source` to the chosen text source on every row before
saving it (main.py line 209); row-level save failures only affect
counters and are not modelled. -/

/-- The Document columns read by `process_transaction_extraction`. -/
structure Document where
  statement_id : String
  poppler_extraction_success : Bool := false
  poppler_text : Option String := none
  ocr_extraction_success : Bool := false
  ocr_text : Option String := none
  text_processing_completed : Bool := false
  text_processing_error : Option String := none

/-- Python truthiness of a nullable text column. -/
def truthyText : Option String → Bool
  | none => false
  | some s => s != ""

/-- The text source chosen by the reconciliation branch. -/
inductive TextSource where
  | poppler
  | ocr
deriving Repr, DecidableEq

/-- The string written into `extraction_source` for a chosen source. -/
def sourceTag : TextSource → String
  | .poppler => "poppler"
  | .ocr => "ocr"

/-- The persistence loop of `process_transaction_extraction`
(main.py lines 207-213): every row is tagged with the chosen text
source before being saved. -/
def tagTransactions (src : TextSource) (txs : List ProcessedTx) : List ProcessedTx :=
  txs.map (fun t => { t with extraction_source := some (sourceTag src) })

/-- Observable outcome of one run of `process_transaction_extraction`:
either the document was missing, or no extracted text was available and
the function returned before calling the engine, or the engine ran on
the chosen text (with the rows persisted when it succeeded). -/
inductive PipelineOutcome where
  | documentNotFound
  | noTextAvailable
  | ranExtraction (source : TextSource) (result : ExtractionOutcome)
      (persisted : List ProcessedTx)

/-- `process_transaction_extraction` (main.py lines 177-226):
prefer the poppler text when that extraction succeeded and is
non-empty, else the OCR text when that extraction succeeded and is
non-empty, else log and return without invoking the engine. -/
def process_transaction_extraction (doc : Option Document)
    (hasClient : Bool) (llm : String → LLMCall) : PipelineOutcome :=
  match doc with
  | none => .documentNotFound
  | some d =>
    if d.poppler_extraction_success && truthyText d.poppler_text then
      let r := extract_transactions hasClient llm (d.poppler_text.getD "") d.statement_id
      .ranExtraction .poppler r (if r.success then tagTransactions .poppler r.transactions else [])
    else if d.ocr_extraction_success && truthyText d.ocr_text then
      let r := extract_transactions hasClient llm (d.ocr_text.getD "") d.statement_id
      .ranExtraction .ocr r (if r.success then tagTransactions .ocr r.transactions else [])
    else .noTextAvailable

/-- Whether a pipeline outcome involved a call to the LLM extraction
engine. -/
def llmInvoked : PipelineOutcome → Bool
  | .ranExtraction _ _ _ => true
  | _ => false

/-- Whether a document carries usable extracted text for the
transaction stage (the disjunction of the two branch guards). -/
def hasUsableText (d : Document) : Bool :=
  (d.poppler_extraction_success && truthyText d.poppler_text) ||
    (d.ocr_extraction_success && truthyText d.ocr_text)

/-- The `TextExtracted{error}` state of the spec state machine,
interpreted over the persisted Document columns: the text-extraction
stage has completed and neither path produced usable text. -/
def inTextExtractedErrorState (d : Document) : Prop :=
  d.text_processing_completed = true ∧ hasUsableText d = false

/-! ## Vision OCR (vision_ocr.py)

The module-level completion client and the per-page completion call
are oracles: `call n` is the outcome of the API request for page `n`
(`Except.error` carrying the exception text of a raised call). The
`Nat` component threaded through the functions counts network requests
actually issued to the completions API. Page rasterization
(`extract_images_from_pdf`) is an oracle list of page images; its
exception path returns an empty list, which the caller folds into the
`No images extracted` failure. -/

/-- One rasterized page as produced by `extract_images_from_pdf`. -/
structure PageImage where
  page_number : Nat
  width : Nat
  height : Nat
  dpi : Nat
deriving Repr, DecidableEq

/-- The dictionary returned by `process_image_with_ocr`. -/
structure OCRPageResult where
  success : Bool
  text : String
  confidence : ℚ
  error : Option String := none
  model : Option String := none

/-- The vision model name. -/
def visionModelName : String := "meta-llama/llama-4-scout-17b-16e-instruct"

/-- `get_llm_response_over_images` (vision_ocr.py lines 25-61): without
a client the fixed error string is returned with no network call; with
a client the call is issued, and a raised exception is caught and
turned into an `Error: ...` string returned as an ordinary response. -/
def get_llm_response_over_images (clientAvailable : Bool)
    (call : Except String String) : String × Nat :=
  if !clientAvailable then ("Error: Groq client not configured", 0)
  else
    match call with
    | .ok t => (t, 1)
    | .error e => ("Error: " ++ e, 1)

/-- `VisionOCR.process_image_with_ocr` (vision_ocr.py lines 129-188):
a missing API key short-circuits to a failure dictionary with no call;
otherwise the response text is wrapped in a success dictionary with the
fixed placeholder confidence 0.9. The `except` branch of the source is
unreachable here because `get_llm_response_over_images` already catches
every exception of the completion call. -/
def process_image_with_ocr (apiKey : Option String) (clientAvailable : Bool)
    (call : Except String String) : OCRPageResult × Nat :=
  match apiKey with
  | none =>
    ({ success := false, error := some "No API key configured",
       text := "", confidence := 0 }, 0)
  | some _ =>
    let r := get_llm_response_over_images clientAvailable call
    ({ success := true, text := r.1, confidence := 0.9,
       model := some visionModelName }, r.2)

/-- One value of the `ocr_results` dictionary built by
`process_pdf_with_ocr` (including the `image_info` sub-dictionary). -/
structure OCRPageEntry where
  text : String
  success : Bool
  confidence : ℚ
  error : String
  image_width : Nat
  image_height : Nat
  image_dpi : Nat

/-- The page delimiter inserted before the text of each page. -/
def pageDelimiter (n : Nat) : String :=
  "\n--- Page " ++ toString n ++ " ---\n"

/-- The `ocr_results` entry built for one page from its
`process_image_with_ocr` result. -/
def mkPageEntry (r : OCRPageResult) (img : PageImage) : OCRPageEntry :=
  { text := r.text, success := r.success, confidence := r.confidence,
    error := r.error.getD "", image_width := img.width,
    image_height := img.height, image_dpi := img.dpi }

/-- The page loop of `process_pdf_with_ocr` (vision_ocr.py lines
227-251), parameterized by the per-page OCR result: accumulates the
`ocr_results` entries in page order, appends delimiter plus text to
`total_text` for successful pages only, and sums the network calls. -/
def ocrFold (pageResult : Nat → OCRPageResult × Nat) (images : List PageImage) :
    List (Nat × OCRPageEntry) × String × Nat :=
  images.foldl
    (fun acc img =>
      let r := pageResult img.page_number
      (acc.1 ++ [(img.page_number, mkPageEntry r.1 img)],
       (if r.1.success then acc.2.1 ++ pageDelimiter img.page_number ++ r.1.text
        else acc.2.1),
       acc.2.2 + r.2))
    ([], "", 0)

/-- The dictionary returned by `process_pdf_with_ocr`. -/
structure OCRDocResult where
  success : Bool
  error : Option String := none
  pages : List (Nat × OCRPageEntry) := []
  total_pages : Nat := 0
  complete_text : Option String := none
  file_path : Option String := none

/-- `VisionOCR.process_pdf_with_ocr` (vision_ocr.py lines 190-268):
missing file and empty rasterization short-circuit to failures;
otherwise every page is processed in order and the result reports
success with `total_pages` the number of rasterized pages and
`complete_text` the stripped concatenation built by the loop. The
second component counts the network calls issued. -/
def process_pdf_with_ocr (pathExists : Bool) (pdf_path : String)
    (images : List PageImage) (apiKey : Option String)
    (clientAvailable : Bool) (call : Nat → Except String String) :
    OCRDocResult × Nat :=
  if !pathExists then
    ({ success := false, error := some ("PDF file not found: " ++ pdf_path) }, 0)
  else if images.isEmpty then
    ({ success := false, error := some "No images extracted from PDF" }, 0)
  else
    let folded := ocrFold (fun n => process_image_with_ocr apiKey clientAvailable (call n)) images
    ({ success := true, pages := folded.1, total_pages := images.length,
       complete_text := some (pyStrip folded.2.1),
       file_path := some pdf_path }, folded.2.2)

/-- The concatenated text the spec describes: delimiter plus page text
for the successful pages only, in page order. Used to state that failed
pages are excluded from `complete_text`. -/
def successfulPagesText (pageResult : Nat → OCRPageResult × Nat)
    (images : List PageImage) : String :=
  (images.filter (fun img => (pageResult img.page_number).1.success)).foldl
    (fun acc img =>
      acc ++ pageDelimiter img.page_number ++ (pageResult img.page_number).1.text)
    ""

/-! ## Deterministic PDF text extraction (pdf_text_extractor.py lines 42-132)

The filesystem and subprocess interactions are an explicit environment:
whether the input path exists, whether the poppler tools are installed,
the outcome of the bounded `pdftotext` run, the outcome of reading the
temporary output file back (whose failure raises and is caught by the
generic handler), and the page count computed by `get_page_count`
(which never raises: its failures all collapse to 0 internally). The
trace records whether an exception escaped the function and the fate of
the temporary output file. -/

/-- Outcome of the bounded `pdftotext` subprocess run. -/
inductive RunOutcome where
  | completed (exitCode : Int) (stderr : String)
  | timedOut
deriving Repr, DecidableEq

/-- The environment of one `extract_text_from_pdf` invocation. -/
structure ExtractorEnv where
  pdf_path : String
  pathExists : Bool
  popplerInstalled : Bool
  runOutcome : RunOutcome
  readOutcome : Except String String
  pageCount : Nat

/-- The dictionary returned by `extract_text_from_pdf`. -/
structure PdfExtractResult where
  success : Bool
  text : String
  pages : Nat
  word_count : Nat
  error : Option String := none
  file_path : Option String := none

/-- Trace of one `extract_text_from_pdf` invocation: the exception that
escaped (if any), the returned dictionary (if the function returned),
and whether the temporary output file was created and deleted. -/
structure ExtractTrace where
  raised : Option String
  result : Option PdfExtractResult
  tempCreated : Bool
  tempDeleted : Bool

/-- `PDFTextExtractor.extract_text_from_pdf` (pdf_text_extractor.py
lines 42-132): a missing input path raises `FileNotFoundError` (lines
52-53); missing poppler returns a structured failure before any
temporary file exists; then the temporary file is created and the run
either times out (structured failure, no cleanup), exits non-zero
(structured failure via `CalledProcessError`, no cleanup), fails while
reading the output back (structured failure via the generic handler, no
cleanup), or succeeds, in which case the temporary file is deleted
before the success dictionary is returned. -/
def extract_text_from_pdf (env : ExtractorEnv) : ExtractTrace :=
  if !env.pathExists then
    { raised := some ("FileNotFoundError: PDF file not found: " ++ env.pdf_path),
      result := none, tempCreated := false, tempDeleted := false }
  else if !env.popplerInstalled then
    { raised := none
      result := some { success := false, error := some "Poppler utilities not installed",
                       text := "", pages := 0, word_count := 0 }
      tempCreated := false, tempDeleted := false }
  else
    match env.runOutcome with
    | .timedOut =>
      { raised := none
        result := some { success := false, error := some "Timeout during text extraction",
                         text := "", pages := 0, word_count := 0 }
        tempCreated := true, tempDeleted := false }
    | .completed code stderr =>
      if code != 0 then
        { raised := none
          result := some { success := false, error := some ("Poppler error: " ++ stderr),
                           text := "", pages := 0, word_count := 0 }
          tempCreated := true, tempDeleted := false }
      else
        match env.readOutcome with
        | .error e =>
          { raised := none
            result := some { success := false, error := some e,
                             text := "", pages := 0, word_count := 0 }
            tempCreated := true, tempDeleted := false }
        | .ok text =>
          { raised := none
            result := some { success := true, text := text, pages := env.pageCount,
                             word_count := (pyWords text).length,
                             file_path := some env.pdf_path }
            tempCreated := true, tempDeleted := true }

/-! ## Helper lemmas -/

/-- Dropping a prefix by a predicate no element satisfies is the
identity. -/
theorem dropWhile_eq_self_of_not {α : Type} (p : α → Bool) (l : List α)
    (h : ∀ c ∈ l, p c = false) : l.dropWhile p = l := by
  cases l with
  | nil => rfl
  | cons a t =>
    rw [List.dropWhile_cons, h a (List.mem_cons_self a t)]
    simp

/-- A decimal digit is not a character deleted by the amount cleaning
step. -/
theorem digit_kept (c : Char) (h : c.isDigit = true) :
    (c != '$' && c != ',' && c != ' ') = true := by
  simp only [bne, Bool.and_eq_true, Bool.not_eq_true']
  refine ⟨⟨?_, ?_⟩, ?_⟩ <;>
    · apply beq_false_of_ne
      intro e
      subst e
      exact absurd h (by decide)

/-- A decimal digit is not whitespace. -/
theorem digit_not_whitespace (c : Char) (h : c.isDigit = true) :
    c.isWhitespace = false := by
  cases hw : c.isWhitespace with
  | false => rfl
  | true =>
    exfalso
    simp only [Char.isWhitespace, Bool.or_eq_true, decide_eq_true_eq] at hw
    rcases hw with ((e | e) | e) | e <;> (subst e; exact absurd h (by decide))

/-- Cleaning a concatenation whose middle part cleans to nothing is
cleaning the concatenation without the middle part. -/
theorem cleanAmountChars_middle (pre mid suf : String)
    (h : cleanAmountChars mid = "") :
    cleanAmountChars (pre ++ mid ++ suf) = cleanAmountChars (pre ++ suf) := by
  have hm : mid.data.filter (fun c => c != '$' && c != ',' && c != ' ') = [] := by
    have := congrArg String.data h
    simpa [cleanAmountChars] using this
  simp [cleanAmountChars, String.data_append, List.filter_append, hm]

/-- The enumeration loop preserves the number of rows. -/
theorem processTransactionsAux_length (sid raw : String) (j : Nat) (ts : List RawTx) :
    (processTransactionsAux sid raw j ts).length = ts.length := by
  induction ts generalizing j with
  | nil => rfl
  | cons t ts ih => simp [processTransactionsAux, ih]

/-- Row `i` of the enumeration loop output is row `i` of the input
processed at index `j + i`. -/
theorem processTransactionsAux_getElem? (sid raw : String) (j i : Nat)
    (ts : List RawTx) :
    (processTransactionsAux sid raw j ts)[i]? =
      (ts[i]?).map (processOneTx sid raw (j + i)) := by
  induction ts generalizing j i with
  | nil => simp [processTransactionsAux]
  | cons t ts ih =>
    cases i with
    | zero => simp [processTransactionsAux]
    | succ n =>
      simp only [processTransactionsAux, List.getElem?_cons_succ]
      rw [ih (j + 1) n]
      have e : j + 1 + n = j + (n + 1) := by omega
      rw [e]

/-! ## Theorems for the claims -/

/-- Claim C7: amount and balance normalization strips the currency
symbol, thousands separators and space characters and parses the
remainder as an exact decimal with the sign preserved, and every value
that cannot be parsed normalizes to null rather than raising: the
result only depends on the input with all `$`, `,` and space characters
deleted (so inserting any of them anywhere changes nothing); a leading
minus sign on a digit string yields the negated value; `"$1,234.56"`
normalizes to the exact decimal 1234.56; `"-75.00"` stays negative;
`"N/A"` and a missing value normalize to `none`. -/
theorem C7_amount_normalization :
    (∀ s t : String, cleanAmountChars s = cleanAmountChars t →
      parse_amount (some (.str s)) = parse_amount (some (.str t))) ∧
    (∀ pre suf : String,
      parse_amount (some (.str (pre ++ "$" ++ suf))) =
        parse_amount (some (.str (pre ++ suf))) ∧
      parse_amount (some (.str (pre ++ "," ++ suf))) =
        parse_amount (some (.str (pre ++ suf))) ∧
      parse_amount (some (.str (pre ++ " " ++ suf))) =
        parse_amount (some (.str (pre ++ suf)))) ∧
    (∀ ds : List Char, ds ≠ [] → (∀ c ∈ ds, c.isDigit = true) →
      parse_amount (some (.str ⟨'-' :: ds⟩)) =
        some ⟨-(digitsVal ds : Int), 0⟩) ∧
    parse_amount (some (.str "$1,234.56")) = some ⟨123456, 2⟩ ∧
    (DecimalVal.mk 123456 2).toRat = 1234.56 ∧
    parse_amount (some (.str "-75.00")) = some ⟨-7500, 2⟩ ∧
    (DecimalVal.mk (-7500) 2).toRat = -75 ∧
    (DecimalVal.mk (-7500) 2).toRat < 0 ∧
    parse_amount (some (.str "N/A")) = none ∧
    parse_amount none = none := by
  refine ⟨?_, ?_, ?_, by decide, by norm_num [DecimalVal.toRat], by decide,
    by norm_num [DecimalVal.toRat], by norm_num [DecimalVal.toRat], by decide, rfl⟩
  · intro s t h
    simp [parse_amount, h]
  · intro pre suf
    refine ⟨?_, ?_, ?_⟩ <;>
      · simp only [parse_amount]
        rw [cleanAmountChars_middle _ _ _ (by decide)]
  · intro ds hne hdig
    have hkeep : ∀ c ∈ '-' :: ds, (c != '$' && c != ',' && c != ' ') = true := by
      intro c hc
      rcases List.mem_cons.mp hc with e | hm
      · subst e; decide
      · exact digit_kept c (hdig c hm)
    have hclean : cleanAmountChars ⟨'-' :: ds⟩ = ⟨'-' :: ds⟩ := by
      simp only [cleanAmountChars]
      rw [List.filter_eq_self.mpr hkeep]
    have hnws : ∀ c ∈ '-' :: ds, c.isWhitespace = false := by
      intro c hc
      rcases List.mem_cons.mp hc with e | hm
      · subst e; decide
      · exact digit_not_whitespace c (hdig c hm)
    have hstrip : pyStrip ⟨'-' :: ds⟩ = ⟨'-' :: ds⟩ := by
      simp only [pyStrip]
      rw [dropWhile_eq_self_of_not _ _ hnws,
        dropWhile_eq_self_of_not _ _
          (by intro c hc; rw [List.mem_reverse] at hc; exact hnws c hc),
        List.reverse_reverse]
    have htake : ds.takeWhile Char.isDigit = ds := List.takeWhile_eq_self_iff.mpr hdig
    have hdrop : ds.dropWhile Char.isDigit = [] := List.dropWhile_eq_nil_iff.mpr hdig
    simp only [parse_amount, hclean, parseDecimalString, hstrip]
    simp only [parseUnsignedDecimal, htake, hdrop]
    rw [if_neg (by simpa [List.isEmpty_iff] using hne)]
    rfl

/-- Witness for C7 at concrete inputs: a space inserted into `"10"`
does not change the parse, and `"-75"` parses to the negative exact
decimal -75. -/
theorem C7_amount_normalization_witness :
    parse_amount (some (.str ("1" ++ " " ++ "0"))) =
      parse_amount (some (.str ("1" ++ "0"))) ∧
    parse_amount (some (.str ⟨['-', '7', '5']⟩)) = some ⟨-75, 0⟩ :=
  ⟨(C7_amount_normalization.2.1 "1" "0").2.2,
   ((C7_amount_normalization.2.2.1 ['7', '5'] (by decide) (by decide)).trans (by decide))⟩

/-- Claim C8: statement texts longer than 10000 characters are embedded
into the prompt as exactly their first 10000 characters followed by the
truncation marker, while texts of at most 10000 characters are embedded
unchanged. -/
theorem C8_prompt_truncation (s : String) :
    (s.length > 10000 →
      (create_extraction_prompt s).data =
        promptHeader.data ++ (s.data.take 10000 ++ truncationMarker.data) ++
          promptFooter.data ∧
      (s.data.take 10000).length = 10000) ∧
    (s.length ≤ 10000 →
      create_extraction_prompt s = promptHeader ++ s ++ promptFooter) := by
  constructor
  · intro h
    constructor
    · simp [create_extraction_prompt, if_pos h, String.data_append]
    · have hs : s.length = s.data.length := rfl
      rw [List.length_take]
      omega
  · intro h
    have : ¬ (s.length > 10000) := by omega
    simp [create_extraction_prompt, if_neg this]

/-- Witness for C8: a 10001-character text is truncated to its first
10000 characters plus the marker, and a short text is embedded
unchanged. -/
theorem C8_prompt_truncation_witness :
    ((String.mk (List.replicate 10001 'a')).length > 10000 ∧
      (create_extraction_prompt (String.mk (List.replicate 10001 'a'))).data =
        promptHeader.data ++
          ((List.replicate 10001 'a').take 10000 ++ truncationMarker.data) ++
          promptFooter.data) ∧
    create_extraction_prompt "short" = promptHeader ++ "short" ++ promptFooter := by
  have hlen : (String.mk (List.replicate 10001 'a')).length > 10000 := by
    show (List.replicate 10001 'a').length > 10000
    rw [List.length_replicate]
    omega
  exact ⟨⟨hlen, ((C8_prompt_truncation _).1 hlen).1⟩,
    (C8_prompt_truncation "short").2 (by decide)⟩

/-- Claim C10: when the parsed LLM response omits the top-level
confidence field, `extract_transactions` still reports success with
confidence_score 0.8, keeps one output row per input row, and assigns
confidence_score 0.8 to every transaction object missing its own
confidence field. -/
theorem C10_confidence_defaults (ts : List RawTx) (raw text sid : String)
    (out : ExtractionOutcome)
    (hout : out = extract_transactions true
      (fun _ => .returns raw (.ok { transactions := some ts, confidence := none }))
      text sid) :
    out.success = true ∧
    out.confidence_score = some 0.8 ∧
    out.transactions.length = ts.length ∧
    (∀ (i : Nat) (f : TxFields), ts[i]? = some (RawTx.obj f) → f.confidence = none →
      (out.transactions[i]?).map (fun p : ProcessedTx => p.confidence_score) =
        some (some 0.8)) := by
  subst hout
  refine ⟨rfl, rfl, processTransactionsAux_length sid raw 0 ts, ?_⟩
  intro i f hi hconf
  show ((processTransactionsAux sid raw 0 ts)[i]?).map _ = _
  rw [processTransactionsAux_getElem?, hi]
  simp [processOneTx, hconf]

/-- Witness for C10 at a concrete one-row response with no confidence
fields anywhere. -/
theorem C10_confidence_defaults_witness :
    (extract_transactions true
        (fun _ => .returns "r" (.ok { transactions := some [RawTx.obj {}], confidence := none }))
        "t" "s").success = true ∧
    (extract_transactions true
        (fun _ => .returns "r" (.ok { transactions := some [RawTx.obj {}], confidence := none }))
        "t" "s").confidence_score = some 0.8 ∧
    ((extract_transactions true
        (fun _ => .returns "r" (.ok { transactions := some [RawTx.obj {}], confidence := none }))
        "t" "s").transactions[0]?).map (fun p : ProcessedTx => p.confidence_score) =
      some (some 0.8) := by
  obtain ⟨h1, h2, _, h4⟩ :=
    C10_confidence_defaults [RawTx.obj {}] "r" "t" "s" _ rfl
  exact ⟨h1, h2, h4 0 {} rfl rfl⟩

/-- Counterexample to claim C9 as stated: a transactions array holding
a non-object row makes `_process_transactions` emit a failure record
with no `extraction_source` key, so not every record of the engine
output carries the provenance tag `extraction_source="llm"`. -/
theorem C9_counterexample :
    ¬ ∀ p ∈ (extract_transactions true
        (fun _ => .returns "raw" (.ok { transactions := some [RawTx.malformed "boom"], confidence := none }))
        "text" "stmt").transactions,
      p.extraction_source = some "llm" := by
  intro h
  have hm : processOneTx "stmt" "raw" 0 (RawTx.malformed "boom") ∈
      (extract_transactions true
        (fun _ => .returns "raw" (.ok { transactions := some [RawTx.malformed "boom"], confidence := none }))
        "text" "stmt").transactions := by
    show _ ∈ processTransactionsAux "stmt" "raw" 0 [RawTx.malformed "boom"]
    simp [processTransactionsAux]
  have hfield := h _ hm
  simp [processOneTx] at hfield

/-- Claim C9 (amended): every transaction-object row of the engine
output carries the provenance tag `extraction_source="llm"`, while the
failure record emitted for a row whose normalization raised carries no
`extraction_source` key; and every row persisted by the orchestrator is
tagged with the chosen text source (which overwrites the engine tag)
before being saved. -/
theorem C9_provenance_tags (txs : List RawTx) (sid raw : String)
    (src : TextSource) :
    (∀ (i : Nat) (f : TxFields), txs[i]? = some (RawTx.obj f) →
      ((processTransactions txs sid raw)[i]?).map (fun p : ProcessedTx => p.extraction_source) =
        some (some "llm")) ∧
    (∀ (i : Nat) (e : String), txs[i]? = some (RawTx.malformed e) →
      ((processTransactions txs sid raw)[i]?).map (fun p : ProcessedTx => p.extraction_source) =
        some none) ∧
    (∀ p ∈ tagTransactions src (processTransactions txs sid raw),
      p.extraction_source = some (sourceTag src)) := by
  refine ⟨?_, ?_, ?_⟩
  · intro i f hi
    show ((processTransactionsAux sid raw 0 txs)[i]?).map _ = _
    rw [processTransactionsAux_getElem?, hi]
    simp [processOneTx]
  · intro i e hi
    show ((processTransactionsAux sid raw 0 txs)[i]?).map _ = _
    rw [processTransactionsAux_getElem?, hi]
    simp [processOneTx]
  · intro p hp
    simp only [tagTransactions, List.mem_map] at hp
    obtain ⟨t, _, ht⟩ := hp
    subst ht
    rfl

/-- Witness for the amended C9 at a concrete two-row batch: the object
row carries the llm tag, the failure row carries none, and every
persisted row is tagged with the poppler source. -/
theorem C9_provenance_tags_witness :
    ((processTransactions [RawTx.obj {}, RawTx.malformed "x"] "s" "r")[0]?).map
        (fun p : ProcessedTx => p.extraction_source) = some (some "llm") ∧
    ((processTransactions [RawTx.obj {}, RawTx.malformed "x"] "s" "r")[1]?).map
        (fun p : ProcessedTx => p.extraction_source) = some none ∧
    (∀ p ∈ tagTransactions TextSource.poppler
        (processTransactions [RawTx.obj {}, RawTx.malformed "x"] "s" "r"),
      p.extraction_source = some "poppler") :=
  ⟨(C9_provenance_tags [RawTx.obj {}, RawTx.malformed "x"] "s" "r" .poppler).1 0 {} rfl,
   (C9_provenance_tags [RawTx.obj {}, RawTx.malformed "x"] "s" "r" .poppler).2.1 1 "x" rfl,
   (C9_provenance_tags [RawTx.obj {}, RawTx.malformed "x"] "s" "r" .poppler).2.2⟩

/-- Claim C1: for a document whose text-extraction stage has completed,
the transaction stage consumes the poppler text when that extraction
succeeded with non-empty text; otherwise the OCR text when that
extraction succeeded with non-empty text; otherwise the engine is never
invoked and the document sits in the TextExtracted-with-error state
with no usable text. -/
theorem C1_source_selection (d : Document) (hasClient : Bool)
    (llm : String → LLMCall) (hdone : d.text_processing_completed = true) :
    (d.poppler_extraction_success = true → truthyText d.poppler_text = true →
      ∃ r p, process_transaction_extraction (some d) hasClient llm =
          .ranExtraction .poppler r p ∧
        r = extract_transactions hasClient llm (d.poppler_text.getD "") d.statement_id) ∧
    ((d.poppler_extraction_success && truthyText d.poppler_text) = false →
      d.ocr_extraction_success = true → truthyText d.ocr_text = true →
      ∃ r p, process_transaction_extraction (some d) hasClient llm =
          .ranExtraction .ocr r p ∧
        r = extract_transactions hasClient llm (d.ocr_text.getD "") d.statement_id) ∧
    ((d.poppler_extraction_success && truthyText d.poppler_text) = false →
      (d.ocr_extraction_success && truthyText d.ocr_text) = false →
      process_transaction_extraction (some d) hasClient llm = .noTextAvailable ∧
      llmInvoked (process_transaction_extraction (some d) hasClient llm) = false ∧
      inTextExtractedErrorState d) := by
  refine ⟨?_, ?_, ?_⟩
  · intro hp ht
    have hg : (d.poppler_extraction_success && truthyText d.poppler_text) = true := by
      rw [hp, ht]; rfl
    have h : process_transaction_extraction (some d) hasClient llm =
        .ranExtraction .poppler
          (extract_transactions hasClient llm (d.poppler_text.getD "") d.statement_id)
          (if (extract_transactions hasClient llm (d.poppler_text.getD "") d.statement_id).success then
            tagTransactions .poppler
              (extract_transactions hasClient llm (d.poppler_text.getD "") d.statement_id).transactions
          else []) := by
      simp [process_transaction_extraction, hg]
    exact ⟨_, _, h, rfl⟩
  · intro hg1 ho ht
    have hg2 : (d.ocr_extraction_success && truthyText d.ocr_text) = true := by
      rw [ho, ht]; rfl
    have h : process_transaction_extraction (some d) hasClient llm =
        .ranExtraction .ocr
          (extract_transactions hasClient llm (d.ocr_text.getD "") d.statement_id)
          (if (extract_transactions hasClient llm (d.ocr_text.getD "") d.statement_id).success then
            tagTransactions .ocr
              (extract_transactions hasClient llm (d.ocr_text.getD "") d.statement_id).transactions
          else []) := by
      simp [process_transaction_extraction, hg1, hg2]
    exact ⟨_, _, h, rfl⟩
  · intro hg1 hg2
    have hout : process_transaction_extraction (some d) hasClient llm = .noTextAvailable := by
      simp [process_transaction_extraction, hg1, hg2]
    refine ⟨hout, ?_, hdone, ?_⟩
    · rw [hout]; rfl
    · simp [hasUsableText, hg1, hg2]

/-- Witness for C1: a completed document with non-empty poppler text is
fed to the engine from the poppler source, and a completed document
with no usable text ends with no engine invocation in the
TextExtracted-with-error state. -/
theorem C1_source_selection_witness :
    (∃ r p, process_transaction_extraction
        (some { statement_id := "s", poppler_extraction_success := true,
                poppler_text := some "t", text_processing_completed := true })
        false (fun _ => .raises "down") =
      PipelineOutcome.ranExtraction .poppler r p ∧
      r = extract_transactions false (fun _ => .raises "down") "t" "s") ∧
    (process_transaction_extraction
        (some { statement_id := "s2", text_processing_completed := true })
        false (fun _ => .raises "down") = .noTextAvailable ∧
      llmInvoked (process_transaction_extraction
        (some { statement_id := "s2", text_processing_completed := true })
        false (fun _ => .raises "down")) = false ∧
      inTextExtractedErrorState { statement_id := "s2", text_processing_completed := true }) :=
  ⟨(C1_source_selection _ false _ rfl).1 rfl rfl,
   (C1_source_selection _ false _ rfl).2.2 rfl rfl⟩

/-- Definedness of the similarity score: some exactly when both
extractions succeeded and both token sets are non-empty. -/
theorem similarity_score_isSome (p_ok o_ok : Bool) (pt ot : String) :
    (similarity_score p_ok pt o_ok ot).isSome ↔
      (p_ok = true ∧ o_ok = true ∧ tokenSet pt ≠ ∅ ∧ tokenSet ot ≠ ∅) := by
  cases p_ok <;> cases o_ok <;> simp [similarity_score]

/-- The value of a defined similarity score is intersection size over
union size of the two token sets. -/
theorem similarity_score_value (p_ok o_ok : Bool) (pt ot : String) (q : ℚ)
    (h : similarity_score p_ok pt o_ok ot = some q) :
    q = ((tokenSet pt ∩ tokenSet ot).card : ℚ) /
      ((tokenSet pt ∪ tokenSet ot).card : ℚ) := by
  by_cases hb : (p_ok && o_ok) = true
  · by_cases hc : tokenSet pt ≠ ∅ ∧ tokenSet ot ≠ ∅
    · have hpos : 0 < (tokenSet pt ∪ tokenSet ot).card :=
        Finset.card_pos.mpr
          ((Finset.nonempty_iff_ne_empty.mpr hc.1).mono Finset.subset_union_left)
      simp [similarity_score, hb, hc, hpos] at h
      exact h.symm
    · simp [similarity_score, hb, hc] at h
  · simp [similarity_score, hb] at h

/-- The similarity score is symmetric in its two inputs. -/
theorem similarity_score_comm (p_ok o_ok : Bool) (pt ot : String) :
    similarity_score p_ok pt o_ok ot = similarity_score o_ok ot p_ok pt := by
  cases p_ok <;> cases o_ok <;> simp [similarity_score]
  by_cases h1 : tokenSet pt = ∅ <;> by_cases h2 : tokenSet ot = ∅ <;>
    simp [h1, h2, Finset.union_comm, Finset.inter_comm]

/-- The similarity of a successful extraction with itself is 1 when its
token set is non-empty. -/
theorem similarity_score_self (pt : String) (h : tokenSet pt ≠ ∅) :
    similarity_score true pt true pt = some 1 := by
  have hne : (tokenSet pt).Nonempty := Finset.nonempty_iff_ne_empty.mpr h
  have hpos : 0 < (tokenSet pt).card := Finset.card_pos.mpr hne
  have hcast : ((tokenSet pt).card : ℚ) ≠ 0 := by exact_mod_cast hpos.ne'
  simp [similarity_score, h, Finset.union_self, Finset.inter_self, hpos,
    div_self hcast]

/-- Claim C5: the similarity score equals intersection size over union
size of the lowercased token sets; it is defined exactly when both
extractions succeeded and both token sets are non-empty; it is
symmetric; and the similarity of a successfully extracted text with
itself is 1 whenever its token set is non-empty. -/
theorem C5_similarity_properties (p_ok o_ok : Bool) (pt ot : String) :
    ((similarity_score p_ok pt o_ok ot).isSome ↔
      (p_ok = true ∧ o_ok = true ∧ tokenSet pt ≠ ∅ ∧ tokenSet ot ≠ ∅)) ∧
    (∀ q : ℚ, similarity_score p_ok pt o_ok ot = some q →
      q = ((tokenSet pt ∩ tokenSet ot).card : ℚ) /
        ((tokenSet pt ∪ tokenSet ot).card : ℚ)) ∧
    similarity_score p_ok pt o_ok ot = similarity_score o_ok ot p_ok pt ∧
    (tokenSet pt ≠ ∅ → similarity_score true pt true pt = some 1) :=
  ⟨similarity_score_isSome p_ok o_ok pt ot,
   fun q h => similarity_score_value p_ok o_ok pt ot q h,
   similarity_score_comm p_ok o_ok pt ot,
   fun h => similarity_score_self pt h⟩

/-- Witness for C5 at concrete texts: two successful non-empty
extractions get a defined score, and a text compared with itself scores
exactly 1. -/
theorem C5_similarity_properties_witness :
    (similarity_score true "Alpha beta" true "beta gamma").isSome ∧
    (tokenSet "hello world" ≠ ∅ ∧
      similarity_score true "hello world" true "hello world" = some 1) :=
  ⟨(C5_similarity_properties true true "Alpha beta" "beta gamma").1.mpr
      ⟨rfl, rfl, by decide, by decide⟩,
   by decide,
   (C5_similarity_properties true true "hello world" "hello world").2.2.2
      (by decide)⟩

/-- The page loop with an arbitrary starting accumulator appends its
contributions to the accumulator components. -/
theorem ocrFold_acc (pageResult : Nat → OCRPageResult × Nat)
    (images : List PageImage)
    (acc : List (Nat × OCRPageEntry) × String × Nat) :
    images.foldl
      (fun acc img =>
        let r := pageResult img.page_number
        (acc.1 ++ [(img.page_number, mkPageEntry r.1 img)],
         (if r.1.success then acc.2.1 ++ pageDelimiter img.page_number ++ r.1.text
          else acc.2.1),
         acc.2.2 + r.2)) acc =
      (acc.1 ++ (ocrFold pageResult images).1,
       acc.2.1 ++ (ocrFold pageResult images).2.1,
       acc.2.2 + (ocrFold pageResult images).2.2) := by
  induction images generalizing acc with
  | nil => simp [ocrFold, String.append_empty]
  | cons img rest ih =>
    rw [List.foldl_cons, ih]
    have hr : ocrFold pageResult (img :: rest) =
        (([] ++ [(img.page_number, mkPageEntry (pageResult img.page_number).1 img)]) ++
            (ocrFold pageResult rest).1,
         (if (pageResult img.page_number).1.success then
            "" ++ pageDelimiter img.page_number ++ (pageResult img.page_number).1.text
          else "") ++ (ocrFold pageResult rest).2.1,
         (0 + (pageResult img.page_number).2) + (ocrFold pageResult rest).2.2) := by
      show List.foldl _ _ (img :: rest) = _
      rw [List.foldl_cons, ih]
    rw [hr]
    by_cases hs : (pageResult img.page_number).1.success <;>
      simp [hs, String.append_assoc, String.empty_append, Nat.add_assoc]

/-- The page loop output on a cons. -/
theorem ocrFold_cons (pageResult : Nat → OCRPageResult × Nat)
    (img : PageImage) (rest : List PageImage) :
    ocrFold pageResult (img :: rest) =
      ((img.page_number, mkPageEntry (pageResult img.page_number).1 img) ::
          (ocrFold pageResult rest).1,
       (if (pageResult img.page_number).1.success then
          pageDelimiter img.page_number ++ (pageResult img.page_number).1.text
        else "") ++ (ocrFold pageResult rest).2.1,
       (pageResult img.page_number).2 + (ocrFold pageResult rest).2.2) := by
  show List.foldl _ _ (img :: rest) = _
  rw [List.foldl_cons, ocrFold_acc]
  by_cases hs : (pageResult img.page_number).1.success <;>
    simp [hs, String.empty_append]

/-- The page loop records one `ocr_results` entry per rasterized page,
in page order, built from that page's own OCR result. -/
theorem ocrFold_pages (pageResult : Nat → OCRPageResult × Nat)
    (images : List PageImage) :
    (ocrFold pageResult images).1 =
      images.map (fun img =>
        (img.page_number, mkPageEntry (pageResult img.page_number).1 img)) := by
  induction images with
  | nil => rfl
  | cons img rest ih => rw [ocrFold_cons, ih, List.map_cons]

/-- One-step unfolding of the successful-pages concatenation. -/
theorem successfulPagesText_cons (pageResult : Nat → OCRPageResult × Nat)
    (img : PageImage) (rest : List PageImage) :
    successfulPagesText pageResult (img :: rest) =
      (if (pageResult img.page_number).1.success then
        pageDelimiter img.page_number ++ (pageResult img.page_number).1.text
      else "") ++ successfulPagesText pageResult rest := by
  have hacc : ∀ (l : List PageImage) (acc : String),
      l.foldl (fun acc img =>
        acc ++ pageDelimiter img.page_number ++ (pageResult img.page_number).1.text) acc =
      acc ++ l.foldl (fun acc img =>
        acc ++ pageDelimiter img.page_number ++ (pageResult img.page_number).1.text) "" := by
    intro l
    induction l with
    | nil => intro acc; simp [String.append_empty]
    | cons x xs ih =>
      intro acc
      rw [List.foldl_cons, ih, List.foldl_cons, ih ("" ++ _ ++ _)]
      simp [String.append_assoc, String.empty_append]
  unfold successfulPagesText
  rw [List.filter_cons]
  by_cases hs : (pageResult img.page_number).1.success
  · rw [if_pos (by simpa using hs), List.foldl_cons, hacc]
    simp [hs, String.empty_append]
  · rw [if_neg (by simpa using hs)]
    simp [hs]

/-- The concatenated text built by the page loop is exactly the
successful-pages concatenation: failed pages are excluded. -/
theorem ocrFold_text (pageResult : Nat → OCRPageResult × Nat)
    (images : List PageImage) :
    (ocrFold pageResult images).2.1 = successfulPagesText pageResult images := by
  induction images with
  | nil => rfl
  | cons img rest ih => rw [ocrFold_cons, successfulPagesText_cons, ih]

/-- Claim C2 (amended): for a PDF whose pages were all rasterized, the
OCR aggregation records every page (in page order) with its own
per-page result, counts every page in `total_pages`, and builds
`complete_text` from the successful pages only, so a page whose
per-page OCR result reports failure is recorded with `success:false`
and its own error and is excluded from `complete_text` while the
remaining pages are still processed. A vision-completion call that
raises with a configured client is however swallowed into a successful
page whose text is the `Error: ...` string (see the counterexample). -/
theorem C2_page_isolation (pdf_path : String) (images : List PageImage)
    (apiKey : Option String) (clientAvailable : Bool)
    (call : Nat → Except String String) (himg : images ≠ []) :
    (process_pdf_with_ocr true pdf_path images apiKey clientAvailable call).1.success = true ∧
    (process_pdf_with_ocr true pdf_path images apiKey clientAvailable call).1.total_pages =
      images.length ∧
    (process_pdf_with_ocr true pdf_path images apiKey clientAvailable call).1.pages =
      images.map (fun img => (img.page_number,
        mkPageEntry (process_image_with_ocr apiKey clientAvailable (call img.page_number)).1 img)) ∧
    (∀ img ∈ images,
      (process_image_with_ocr apiKey clientAvailable (call img.page_number)).1.success = false →
        (img.page_number,
            mkPageEntry (process_image_with_ocr apiKey clientAvailable (call img.page_number)).1 img) ∈
          (process_pdf_with_ocr true pdf_path images apiKey clientAvailable call).1.pages ∧
        (mkPageEntry (process_image_with_ocr apiKey clientAvailable (call img.page_number)).1 img).success = false ∧
        (mkPageEntry (process_image_with_ocr apiKey clientAvailable (call img.page_number)).1 img).error =
          (process_image_with_ocr apiKey clientAvailable (call img.page_number)).1.error.getD "") ∧
    (process_pdf_with_ocr true pdf_path images apiKey clientAvailable call).1.complete_text =
      some (pyStrip (successfulPagesText
        (fun n => process_image_with_ocr apiKey clientAvailable (call n)) images)) := by
  have hne : images.isEmpty = false := by
    cases images with
    | nil => exact absurd rfl himg
    | cons a l => rfl
  have hout : process_pdf_with_ocr true pdf_path images apiKey clientAvailable call =
      ({ success := true,
         pages := (ocrFold (fun n => process_image_with_ocr apiKey clientAvailable (call n)) images).1,
         total_pages := images.length,
         complete_text := some (pyStrip
           (ocrFold (fun n => process_image_with_ocr apiKey clientAvailable (call n)) images).2.1),
         file_path := some pdf_path },
       (ocrFold (fun n => process_image_with_ocr apiKey clientAvailable (call n)) images).2.2) := by
    simp [process_pdf_with_ocr, hne]
  refine ⟨by rw [hout], by rw [hout], ?_, ?_, ?_⟩
  · rw [hout]
    exact ocrFold_pages _ images
  · intro img hmem hfail
    refine ⟨?_, ?_, rfl⟩
    · rw [hout]
      show _ ∈ (ocrFold _ images).1
      rw [ocrFold_pages]
      exact List.mem_map_of_mem _ hmem
    · simp [mkPageEntry, hfail]
  · rw [hout]
    show some (pyStrip (ocrFold _ images).2.1) = _
    rw [ocrFold_text]

/-- Witness for the amended C2 at a concrete two-page PDF with no API
key: both per-page results fail, both pages are recorded, both count
toward `total_pages`, and `complete_text` is empty. -/
theorem C2_page_isolation_witness :
    (process_pdf_with_ocr true "doc.pdf"
        [⟨1, 10, 10, 300⟩, ⟨2, 10, 10, 300⟩] none true (fun _ => .ok "hi")).1.total_pages = 2 ∧
    ((1, mkPageEntry (process_image_with_ocr none true (Except.ok "hi")).1 ⟨1, 10, 10, 300⟩) ∈
        (process_pdf_with_ocr true "doc.pdf"
          [⟨1, 10, 10, 300⟩, ⟨2, 10, 10, 300⟩] none true (fun _ => .ok "hi")).1.pages ∧
      (mkPageEntry (process_image_with_ocr none true (Except.ok "hi")).1 ⟨1, 10, 10, 300⟩).success = false) ∧
    (process_pdf_with_ocr true "doc.pdf"
        [⟨1, 10, 10, 300⟩, ⟨2, 10, 10, 300⟩] none true (fun _ => .ok "hi")).1.complete_text =
      some (pyStrip (successfulPagesText (fun _ => process_image_with_ocr none true (.ok "hi"))
        [⟨1, 10, 10, 300⟩, ⟨2, 10, 10, 300⟩])) := by
  obtain ⟨_, h2, _, h4, h5⟩ :=
    C2_page_isolation "doc.pdf" [⟨1, 10, 10, 300⟩, ⟨2, 10, 10, 300⟩] none true
      (fun _ => .ok "hi") (by decide)
  obtain ⟨hm, hs, _⟩ := h4 ⟨1, 10, 10, 300⟩ (by decide) rfl
  exact ⟨h2, ⟨hm, hs⟩, h5⟩

/-- Counterexample to claim C2 as stated: a raised vision-completion
call with a configured client is caught inside
`get_llm_response_over_images` and returned as an `Error: ...` string,
so the page is recorded with `success:true` and the error text is
included in `complete_text`, not excluded. -/
theorem C2_counterexample :
    (process_pdf_with_ocr true "doc.pdf" [⟨1, 100, 100, 300⟩] (some "key") true
        (fun _ => Except.error "boom")).1.pages =
      [(1, { text := "Error: boom", success := true, confidence := 0.9, error := "",
             image_width := 100, image_height := 100, image_dpi := 300 })] ∧
    (process_pdf_with_ocr true "doc.pdf" [⟨1, 100, 100, 300⟩] (some "key") true
        (fun _ => Except.error "boom")).1.complete_text =
      some "--- Page 1 ---\nError: boom" := ⟨rfl, rfl⟩

/-- The page loop issues no network calls and reports every page as a
failure when the API key is missing. -/
theorem ocrFold_no_key (clientAvailable : Bool) (call : Nat → Except String String)
    (images : List PageImage) :
    (ocrFold (fun n => process_image_with_ocr none clientAvailable (call n)) images).2.2 = 0 ∧
    successfulPagesText (fun n => process_image_with_ocr none clientAvailable (call n)) images = "" := by
  induction images with
  | nil => exact ⟨rfl, rfl⟩
  | cons img rest ih =>
    refine ⟨?_, ?_⟩
    · rw [ocrFold_cons]
      have h0 : (process_image_with_ocr none clientAvailable (call img.page_number)).2 = 0 := rfl
      rw [h0, ih.1]
    · rw [successfulPagesText_cons]
      have hs : (process_image_with_ocr none clientAvailable
          (call img.page_number)).1.success = false := rfl
      rw [hs, ih.2]
      simp [String.append_empty]

/-- Claim C4 (amended): with no API credential and a rasterizable PDF,
zero network calls are performed, every per-page entry reports failure
with the `No API key configured` error, and `complete_text` is empty;
the top-level result however reports `success:true` (see the
counterexample). -/
theorem C4_missing_credential (pdf_path : String) (images : List PageImage)
    (clientAvailable : Bool) (call : Nat → Except String String)
    (himg : images ≠ []) :
    (process_pdf_with_ocr true pdf_path images none clientAvailable call).2 = 0 ∧
    (process_pdf_with_ocr true pdf_path images none clientAvailable call).1.success = true ∧
    (process_pdf_with_ocr true pdf_path images none clientAvailable call).1.total_pages =
      images.length ∧
    (process_pdf_with_ocr true pdf_path images none clientAvailable call).1.complete_text =
      some "" ∧
    (∀ e ∈ (process_pdf_with_ocr true pdf_path images none clientAvailable call).1.pages,
      e.2.success = false ∧ e.2.error = "No API key configured") := by
  have hne : images.isEmpty = false := by
    cases images with
    | nil => exact absurd rfl himg
    | cons a l => rfl
  obtain ⟨h1, h2, h3, h4, h5⟩ :=
    C2_page_isolation pdf_path images none clientAvailable call himg
  refine ⟨?_, h1, h2, ?_, ?_⟩
  · simp [process_pdf_with_ocr, hne]
    exact (ocrFold_no_key clientAvailable call images).1
  · rw [h5, (ocrFold_no_key clientAvailable call images).2]
    rfl
  · intro e hmem
    rw [h3] at hmem
    simp only [List.mem_map] at hmem
    obtain ⟨img, _, himg2⟩ := hmem
    subst himg2
    exact ⟨rfl, rfl⟩

/-- Witness for the amended C4 at a concrete one-page PDF. -/
theorem C4_missing_credential_witness :
    (process_pdf_with_ocr true "doc.pdf" [⟨1, 100, 100, 300⟩] none true
        (fun _ => Except.ok "hi")).2 = 0 ∧
    (process_pdf_with_ocr true "doc.pdf" [⟨1, 100, 100, 300⟩] none true
        (fun _ => Except.ok "hi")).1.complete_text = some "" ∧
    (∀ e ∈ (process_pdf_with_ocr true "doc.pdf" [⟨1, 100, 100, 300⟩] none true
        (fun _ => Except.ok "hi")).1.pages,
      e.2.success = false ∧ e.2.error = "No API key configured") := by
  obtain ⟨h1, _, _, h4, h5⟩ :=
    C4_missing_credential "doc.pdf" [⟨1, 100, 100, 300⟩] true
      (fun _ => Except.ok "hi") (by decide)
  exact ⟨h1, h4, h5⟩

/-- Counterexample to claim C4 as stated: with no API credential and a
rasterized page, the dictionary returned by `process_pdf_with_ocr`
reports `success:true`, not an all-failure result. -/
theorem C4_counterexample :
    (process_pdf_with_ocr true "doc.pdf" [⟨1, 100, 100, 300⟩] none true
        (fun _ => Except.ok "hi")).1.success = true := rfl

/-- Claim C3 (amended): for every input path that exists on disk,
`extract_text_from_pdf` lets no exception escape and returns a
structured dictionary that is either a success or one of the taxonomy
failures ToolMissing, Timeout, ToolError (nonzero exit) or Unexpected;
a non-existent input path however raises `FileNotFoundError` (see the
counterexample). -/
theorem C3_structured_failures (env : ExtractorEnv)
    (h : env.pathExists = true) :
    (extract_text_from_pdf env).raised = none ∧
    ∃ r, (extract_text_from_pdf env).result = some r ∧
      (r.success = true ∨
        r.error = some "Poppler utilities not installed" ∨
        r.error = some "Timeout during text extraction" ∨
        (∃ stderr, r.error = some ("Poppler error: " ++ stderr)) ∨
        (∃ msg, env.readOutcome = Except.error msg ∧ r.error = some msg)) := by
  cases hpi : env.popplerInstalled with
  | false =>
    exact ⟨by simp [extract_text_from_pdf, h, hpi],
      { success := false, error := some "Poppler utilities not installed",
        text := "", pages := 0, word_count := 0 },
      by simp [extract_text_from_pdf, h, hpi], Or.inr (Or.inl rfl)⟩
  | true =>
    cases hro : env.runOutcome with
    | timedOut =>
      exact ⟨by simp [extract_text_from_pdf, h, hpi, hro],
        { success := false, error := some "Timeout during text extraction",
          text := "", pages := 0, word_count := 0 },
        by simp [extract_text_from_pdf, h, hpi, hro],
        Or.inr (Or.inr (Or.inl rfl))⟩
    | completed code stderr =>
      by_cases hc : (code != 0) = true
      · exact ⟨by simp [extract_text_from_pdf, h, hpi, hro, hc],
          { success := false, error := some ("Poppler error: " ++ stderr),
            text := "", pages := 0, word_count := 0 },
          by simp [extract_text_from_pdf, h, hpi, hro, hc],
          Or.inr (Or.inr (Or.inr (Or.inl ⟨stderr, rfl⟩)))⟩
      · cases hread : env.readOutcome with
        | error e =>
          exact ⟨by simp [extract_text_from_pdf, h, hpi, hro, hc, hread],
            { success := false, error := some e,
              text := "", pages := 0, word_count := 0 },
            by simp [extract_text_from_pdf, h, hpi, hro, hc, hread],
            Or.inr (Or.inr (Or.inr (Or.inr ⟨e, rfl, rfl⟩)))⟩
        | ok text =>
          exact ⟨by simp [extract_text_from_pdf, h, hpi, hro, hc, hread],
            { success := true, text := text, pages := env.pageCount,
              word_count := (pyWords text).length, file_path := some env.pdf_path },
            by simp [extract_text_from_pdf, h, hpi, hro, hc, hread],
            Or.inl rfl⟩

/-- Witness for the amended C3 at a concrete timed-out environment
with an existing input path. -/
theorem C3_structured_failures_witness :
    (extract_text_from_pdf
        { pdf_path := "doc.pdf", pathExists := true, popplerInstalled := true,
          runOutcome := .timedOut, readOutcome := .ok "", pageCount := 0 }).raised = none ∧
    ∃ r, (extract_text_from_pdf
        { pdf_path := "doc.pdf", pathExists := true, popplerInstalled := true,
          runOutcome := .timedOut, readOutcome := .ok "", pageCount := 0 }).result = some r ∧
      (r.success = true ∨
        r.error = some "Poppler utilities not installed" ∨
        r.error = some "Timeout during text extraction" ∨
        (∃ stderr, r.error = some ("Poppler error: " ++ stderr)) ∨
        (∃ msg, (Except.ok "" : Except String String) = Except.error msg ∧
          r.error = some msg)) :=
  C3_structured_failures
    { pdf_path := "doc.pdf", pathExists := true, popplerInstalled := true,
      runOutcome := .timedOut, readOutcome := .ok "", pageCount := 0 } rfl

/-- Counterexample to claim C3 as stated: a non-existent input path
makes `extract_text_from_pdf` raise `FileNotFoundError` past the
component instead of returning a structured dictionary. -/
theorem C3_counterexample :
    (extract_text_from_pdf
        { pdf_path := "missing.pdf", pathExists := false, popplerInstalled := true,
          runOutcome := .completed 0 "", readOutcome := .ok "", pageCount := 0 }).raised =
      some "FileNotFoundError: PDF file not found: missing.pdf" ∧
    (extract_text_from_pdf
        { pdf_path := "missing.pdf", pathExists := false, popplerInstalled := true,
          runOutcome := .completed 0 "", readOutcome := .ok "", pageCount := 0 }).result =
      none := ⟨rfl, rfl⟩

/-- Claim C6 (amended): on every invocation that reaches creation of
the temporary output file (existing path, poppler installed), the
temporary file is deleted if and only if the invocation takes the
success path; on the timeout, nonzero-exit and unexpected-error paths
the temporary file is left behind (see the counterexample). -/
theorem C6_temp_file_cleanup (env : ExtractorEnv)
    (hp : env.pathExists = true) (hi : env.popplerInstalled = true) :
    (extract_text_from_pdf env).tempCreated = true ∧
    ((extract_text_from_pdf env).tempDeleted = true ↔
      (∃ r, (extract_text_from_pdf env).result = some r ∧ r.success = true)) := by
  cases hro : env.runOutcome with
  | timedOut =>
    refine ⟨by simp [extract_text_from_pdf, hp, hi, hro], ?_⟩
    simp only [extract_text_from_pdf, hp, hi, hro]
    simp
  | completed code stderr =>
    by_cases hc : (code != 0) = true
    · refine ⟨by simp [extract_text_from_pdf, hp, hi, hro, hc], ?_⟩
      simp only [extract_text_from_pdf, hp, hi, hro]
      simp [hc]
    · cases hread : env.readOutcome with
      | error e =>
        refine ⟨by simp [extract_text_from_pdf, hp, hi, hro, hc, hread], ?_⟩
        simp only [extract_text_from_pdf, hp, hi, hro]
        simp [hc, hread]
      | ok text =>
        refine ⟨by simp [extract_text_from_pdf, hp, hi, hro, hc, hread], ?_⟩
        simp only [extract_text_from_pdf, hp, hi, hro]
        simp [hc, hread]

/-- Witness for the amended C6: a successful run deletes the temporary
file, and the equivalence holds at a concrete environment. -/
theorem C6_temp_file_cleanup_witness :
    (extract_text_from_pdf
        { pdf_path := "doc.pdf", pathExists := true, popplerInstalled := true,
          runOutcome := .completed 0 "", readOutcome := .ok "hello", pageCount := 1 }).tempCreated = true ∧
    ((extract_text_from_pdf
        { pdf_path := "doc.pdf", pathExists := true, popplerInstalled := true,
          runOutcome := .completed 0 "", readOutcome := .ok "hello", pageCount := 1 }).tempDeleted = true ↔
      (∃ r, (extract_text_from_pdf
          { pdf_path := "doc.pdf", pathExists := true, popplerInstalled := true,
            runOutcome := .completed 0 "", readOutcome := .ok "hello", pageCount := 1 }).result = some r ∧
        r.success = true)) :=
  C6_temp_file_cleanup
    { pdf_path := "doc.pdf", pathExists := true, popplerInstalled := true,
      runOutcome := .completed 0 "", readOutcome := .ok "hello", pageCount := 1 } rfl rfl

/-- Counterexample to claim C6 as stated: on the timeout exit path the
temporary output file has been created but is not deleted before the
function returns. -/
theorem C6_counterexample :
    (extract_text_from_pdf
        { pdf_path := "doc.pdf", pathExists := true, popplerInstalled := true,
          runOutcome := .timedOut, readOutcome := .ok "", pageCount := 0 }).tempCreated = true ∧
    (extract_text_from_pdf
        { pdf_path := "doc.pdf", pathExists := true, popplerInstalled := true,
          runOutcome := .timedOut, readOutcome := .ok "", pageCount := 0 }).tempDeleted = false ∧
    (extract_text_from_pdf
        { pdf_path := "doc.pdf", pathExists := true, popplerInstalled := true,
          runOutcome := .timedOut, readOutcome := .ok "", pageCount := 0 }).result =
      some { success := false, error := some "Timeout during text extraction",
             text := "", pages := 0, word_count := 0 } := ⟨rfl, rfl, rfl⟩

end Monitor
